import Mathlib

/-
Verification development for the osxkeychain subsystem of codesigndoc.

The Go source (package osxkeychain, plus its caller cli/scan.go) is embedded
shallowly:

  - A CoreFoundation value (`CFTypeRef`) is modelled by `CFVal`: a null
    pointer, a CFString (carrying the UTF-8 C-string pointer that
    `CFStringGetCStringPtr` would yield, `none` when that call would return
    NULL), an identity reference, or a value of any other type id.
  - An identity record returned by `SecItemCopyMatching` is an attribute
    dictionary, modelled as an association list `Rec`.
  - The ambient store is `Store`: the OSStatus that `SecItemCopyMatching`
    would return, and the result array of records when it succeeds.
  - `FindIdentity` is embedded with an explicit ledger (`outstanding`) of the
    handles it has retained via `CFRetain` and not released by the time it
    returns; the Go function never releases those handles itself, so the
    ledger is exactly the accumulator slice `retIdentityRefs`.
  - `ExportFromKeychain` is embedded against `ExportEnv` (the status and the
    byte buffer that `SecItemExport` would produce, and whether the file
    write succeeds) and an initial file content `fs0` at the output path.
    Indexing `itemRefsToExport[0]` on an empty slice is a Go runtime panic;
    the outcome records it in the `panicked` field.

Go error values are plain strings built by fmt.Errorf; here they are a closed
inductive carrying the raw OSStatus code where the Go message interpolates it,
with a `message` function rendering the exact format string. Apostrophes that
appear in the original Go message literals are elided from the rendered text.
-/

set_option autoImplicit false

namespace OSXKeychain

/-- Model of a CoreFoundation value as seen through the accessors the code
uses: type id, UTF-8 C-string pointer for strings, identity of references. -/
inductive CFVal where
  | nullVal
  | str (cptr : Option String)
  | ref (h : Nat)
  | other
  deriving DecidableEq, Repr, Inhabited

/-- An identity record: the attribute dictionary returned for one identity. -/
abbrev Rec : Type := List (String × CFVal)

/-- Dictionary access shared by CFDictionaryGetValueIfPresent and
CFDictionaryGetValue: the value under the key, if the key is present. -/
def lookupDict (dict : Rec) (key : String) : Option CFVal :=
  (List.find? (fun p => p.1 = key) dict).map (fun p => p.2)

/-- Embedding of getCFDictValueRef: CFDictionaryGetValueIfPresent existence
check, then CFDictionaryGetValue. A present-but-NULL value is returned as a
value (the nil check happens one layer up, as in the source). -/
def getCFDictValueRef (dict : Rec) (key : String) : Except String CFVal :=
  match lookupDict dict key with
  | none => Except.error "getCFDictValueRef: Key does not exist"
  | some v => Except.ok v

/-- Embedding of getCFDictValueCFStringRef: read the raw value, reject a nil
value, then reject any value whose CFGetTypeID is not CFStringGetTypeID. -/
def getCFDictValueCFStringRef (dict : Rec) (key : String) : Except String CFVal :=
  match getCFDictValueRef dict key with
  | Except.error e => Except.error e
  | Except.ok v =>
    match v with
    | CFVal.nullVal => Except.error "getCFDictValueCFStringRef: Nil value returned"
    | CFVal.str c => Except.ok (CFVal.str c)
    | CFVal.ref _ => Except.error "getCFDictValueCFStringRef: value is not a string"
    | CFVal.other => Except.error "getCFDictValueCFStringRef: value is not a string"

/-- Embedding of getCFDictValueUTF8String: get the CFString, re-check nil
(unreachable after the layer below), then CFStringGetCStringPtr, which yields
NULL for some builds; NULL maps to an error, never to an empty string. -/
def getCFDictValueUTF8String (dict : Rec) (key : String) : Except String String :=
  match getCFDictValueCFStringRef dict key with
  | Except.error e => Except.error e
  | Except.ok v =>
    match v with
    | CFVal.str (some s) => Except.ok s
    | CFVal.str none => Except.error "getCFDictValueUTF8String: failed to convert value to string"
    | _ => Except.error "getCFDictValueUTF8String: Nil value"

/-- The errSecSuccess OSStatus. -/
def errSecSuccess : Int := 0

/-- The store as FindIdentity observes it: the OSStatus SecItemCopyMatching
returns, and the result array of identity records when it succeeds. -/
structure Store where
  queryStatus : Int
  records : List Rec
  deriving DecidableEq, Repr

/-- Errors FindIdentity can return (Go: fmt.Errorf strings; the storeFailure
and notFound constructors keep the raw data the format strings interpolate). -/
inductive KCError where
  | storeFailure (code : Int)
  | notFound
  | attrFailure (msg : String)
  deriving DecidableEq, Repr

/-- Rendering of each KCError as the Go error string (apostrophes elided). -/
def KCError.message : KCError → String
  | KCError.storeFailure code => "Failed to call SecItemCopyMatch - OSStatus: " ++ toString code
  | KCError.notFound => "No Identity found in your Keychain with the specified Label!"
  | KCError.attrFailure m => m

/-- Outcome of one FindIdentity call: the returned slice (`none` models the
Go nil slice), the returned error, and the ledger of handles retained by
CFRetain during the call and not released by the call itself. -/
structure FindOutcome where
  refs : Option (List CFVal)
  err : Option KCError
  outstanding : List CFVal
  deriving DecidableEq, Repr

/-- One iteration of the FindIdentity filtering loop, on the record r at the
current index: read the labl attribute (read failure returns the wrapped
error and the accumulator retained so far), skip the record unless the label
matches, read the v_Ref attribute (read failure likewise returns), retain
the v_Ref value onto the accumulator and continue with the rest of the loop. -/
def scanStep (identityLabel : String) (r : Rec) (acc : List CFVal)
    (next : List CFVal → FindOutcome) : FindOutcome :=
  match getCFDictValueUTF8String r "labl" with
  | Except.error e =>
    ⟨none, some (KCError.attrFailure ("FindIdentity: failed to get labl property: " ++ e)), acc⟩
  | Except.ok labl =>
    if labl = identityLabel then
      match getCFDictValueRef r "v_Ref" with
      | Except.error e =>
        ⟨none, some (KCError.attrFailure ("FindIdentity: failed to get v_Ref property: " ++ e)), acc⟩
      | Except.ok v => next (acc ++ [v])
    else next acc

/-- The filtering loop of FindIdentity. The Go loop is
`for i := identitiesCount - 1; i > 0; i--`, so the loop body runs for index
i+1 and the loop ends when the counter reaches 0 without examining index 0.
The accumulator `acc` is retIdentityRefs: each match has its v_Ref value
retained and appended. -/
def scanLoop (identityLabel : String) (records : List Rec) : Nat → List CFVal → FindOutcome
  | 0, acc => ⟨some acc, none, acc⟩
  | i + 1, acc =>
    scanStep identityLabel (records.getD (i + 1) ([] : List (String × CFVal))) acc
      (scanLoop identityLabel records i)

/-- Embedding of FindIdentity: query status check, empty-result check, then
the reverse filtering loop starting at index count - 1. -/
def FindIdentity (identityLabel : String) (st : Store) : FindOutcome :=
  if st.queryStatus ≠ errSecSuccess then
    ⟨none, some (KCError.storeFailure st.queryStatus), []⟩
  else if st.records.length < 1 then
    ⟨none, some KCError.notFound, []⟩
  else
    scanLoop identityLabel st.records (st.records.length - 1) []

/-- Errors ExportFromKeychain can return. -/
inductive ExpError where
  | storeFailure (code : Int)
  | ioFailure (msg : String)
  deriving DecidableEq, Repr

/-- Rendering of each ExpError as the Go error string. -/
def ExpError.message : ExpError → String
  | ExpError.storeFailure code => "SecItemExport: error (OSStatus): " ++ toString code
  | ExpError.ioFailure m => m

/-- Environment of one ExportFromKeychain call: what SecItemExport would
return (status, and the byte buffer on success; CFDataGetLength of that
buffer is its list length), whether WriteBytesToFile succeeds, the error text
it yields on failure, and the content left at the path by a failed write. -/
structure ExportEnv where
  exportStatus : Int
  exportedBytes : List UInt8
  writeOk : Bool
  writeErrMsg : String
  failedWriteContent : Option (List UInt8)
  deriving DecidableEq, Repr

/-- Outcome of one ExportFromKeychain call: whether the Go runtime panicked
(index out of range), the returned error, the content of the output file
after the call, how many times the exported-data buffer was released, and
whether SecItemExport was invoked at all. -/
structure ExportOutcome where
  panicked : Bool
  err : Option ExpError
  fileContent : Option (List UInt8)
  bufReleases : Nat
  exportCalled : Bool
  deriving DecidableEq, Repr

/-- Embedding of ExportFromKeychain. The source takes the address of element
0 of itemRefsToExport before any length check, so an empty slice panics
before SecItemExport is reached. On non-success status it returns before the
deferred CFRelease of exportedData is registered, so the buffer is not
released and the file is untouched. On success GoBytes copies
CFDataGetLength bytes out and the deferred CFRelease runs exactly once
whether or not the write succeeds. -/
def ExportFromKeychain (itemRefsToExport : List CFVal) (env : ExportEnv)
    (fs0 : Option (List UInt8)) : ExportOutcome :=
  if itemRefsToExport.length = 0 then
    ⟨true, none, fs0, 0, false⟩
  else if env.exportStatus ≠ errSecSuccess then
    ⟨false, some (ExpError.storeFailure env.exportStatus), fs0, 0, true⟩
  else
    let dataBytes := env.exportedBytes
    if env.writeOk then
      ⟨false, none, some dataBytes, 1, true⟩
    else
      ⟨false,
        some (ExpError.ioFailure ("ExportFromKeychain: failed to write into file: " ++ env.writeErrMsg)),
        env.failedWriteContent, 1, true⟩

/-- Result of the per-identity checks the caller (cli/scan.go) runs on the
slice FindIdentity returned: fewer than one handle and more than one handle
are each a log.Fatalf. -/
inductive ScanCheck where
  | ok
  | fatalNoIdentity
  | fatalMultiple
  deriving DecidableEq, Repr

/-- Embedding of the two checks scan performs on identityRefs. -/
def scanIdentityRefsCheck (identityRefs : List CFVal) : ScanCheck :=
  if identityRefs.length < 1 then ScanCheck.fatalNoIdentity
  else if identityRefs.length > 1 then ScanCheck.fatalMultiple
  else ScanCheck.ok

/-- The CFDataGetLength accessor: the reported length of a byte buffer. -/
def CFDataGetLength (data : List UInt8) : Nat := data.length

/-- What one loop iteration contributes on a cleanly reading record: the
v_Ref value when the labl attribute reads as the requested label, nothing
otherwise. -/
def matchedStep (identityLabel : String) (r : Rec) : List CFVal :=
  match getCFDictValueUTF8String r "labl", getCFDictValueRef r "v_Ref" with
  | Except.ok labl, Except.ok v => if labl = identityLabel then [v] else []
  | _, _ => []

/-- Specification-side description of what the loop collects: the v_Ref
values of the records at indices i, i - 1, ..., 1 whose labl attribute reads
as the requested label. Agrees with scanLoop when every record reads
cleanly. -/
def matchedVRefs (identityLabel : String) (records : List Rec) : Nat → List CFVal
  | 0 => []
  | i + 1 =>
    matchedStep identityLabel (records.getD (i + 1) ([] : List (String × CFVal))) ++
      matchedVRefs identityLabel records i

/-- A record reads cleanly when both its labl and its v_Ref attribute reads
succeed. -/
def recReadsClean (r : Rec) : Bool :=
  (match getCFDictValueUTF8String r "labl" with
   | Except.ok _ => true
   | Except.error _ => false) &&
  (match getCFDictValueRef r "v_Ref" with
   | Except.ok _ => true
   | Except.error _ => false)

/-- Every record of the result array reads cleanly. -/
def allRecsClean (records : List Rec) : Bool := records.all recReadsClean

/-- A concrete record whose labl attribute is the string L and whose v_Ref
attribute is the identity reference h. -/
def recL (h : Nat) : Rec := [("labl", CFVal.str (some "L")), ("v_Ref", CFVal.ref h)]

/-- A concrete record whose labl attribute is a different string. -/
def recOther : Rec := [("labl", CFVal.str (some "other")), ("v_Ref", CFVal.ref 99)]

/-- A concrete record with no labl attribute at all, so its labl read fails. -/
def recNoLabl : Rec := [("v_Ref", CFVal.ref 50)]

/-- On a cleanly reading record one loop iteration never errors: it passes
the accumulator, extended by the matched v_Ref contribution, to the rest of
the loop. -/
theorem scanStep_clean (identityLabel : String) (r : Rec) (acc : List CFVal)
    (next : List CFVal → FindOutcome) (h : recReadsClean r = true) :
    scanStep identityLabel r acc next = next (acc ++ matchedStep identityLabel r) := by
  cases hl : getCFDictValueUTF8String r "labl" with
  | error e =>
    exfalso
    simp [recReadsClean, hl] at h
  | ok labl =>
    cases hv : getCFDictValueRef r "v_Ref" with
    | error e =>
      exfalso
      simp [recReadsClean, hl, hv] at h
    | ok v =>
      simp only [scanStep, matchedStep, hl, hv]
      by_cases hcmp : labl = identityLabel
      · rw [if_pos hcmp, if_pos hcmp]
      · rw [if_neg hcmp, if_neg hcmp]
        simp

/-- Every loop iteration either returns an error (with a nil slice and the
accumulator so far as the outstanding ledger) or defers to the rest of the
loop on some extended accumulator. -/
theorem scanStep_cases (identityLabel : String) (r : Rec) (acc : List CFVal)
    (next : List CFVal → FindOutcome) :
    (∃ m, scanStep identityLabel r acc next = ⟨none, some m, acc⟩) ∨
    (∃ acc2, scanStep identityLabel r acc next = next acc2) := by
  cases hl : getCFDictValueUTF8String r "labl" with
  | error e =>
    left
    refine ⟨KCError.attrFailure ("FindIdentity: failed to get labl property: " ++ e), ?_⟩
    simp only [scanStep, hl]
  | ok labl =>
    by_cases hcmp : labl = identityLabel
    · cases hv : getCFDictValueRef r "v_Ref" with
      | error e =>
        left
        refine ⟨KCError.attrFailure ("FindIdentity: failed to get v_Ref property: " ++ e), ?_⟩
        simp only [scanStep, hl, hv]
        rw [if_pos hcmp]
      | ok v =>
        right
        refine ⟨acc ++ [v], ?_⟩
        simp only [scanStep, hl, hv]
        rw [if_pos hcmp]
    · right
      refine ⟨acc, ?_⟩
      simp only [scanStep, hl]
      rw [if_neg hcmp]

/-- When every record of the array reads cleanly, the loop never errors and
its result is the accumulator followed by the matched v_Ref values of the
scanned indices. -/
theorem scanLoop_clean_eq (identityLabel : String) (records : List Rec) :
    ∀ (i : Nat), i < records.length → allRecsClean records = true →
    ∀ (acc : List CFVal),
    scanLoop identityLabel records i acc =
      ⟨some (acc ++ matchedVRefs identityLabel records i), none,
        acc ++ matchedVRefs identityLabel records i⟩ := by
  intro i
  induction i with
  | zero =>
    intro _ _ acc
    simp [scanLoop, matchedVRefs]
  | succ i ih =>
    intro hi hall acc
    have hget : records.getD (i + 1) ([] : List (String × CFVal)) = records[i + 1] :=
      List.getD_eq_getElem records _ hi
    have hmem : records.getD (i + 1) ([] : List (String × CFVal)) ∈ records := by
      rw [hget]
      exact List.getElem_mem hi
    have hcleanr : recReadsClean (records.getD (i + 1) ([] : List (String × CFVal))) = true :=
      List.all_eq_true.mp hall _ hmem
    have hi' : i < records.length := Nat.lt_of_succ_lt hi
    show scanStep identityLabel (records.getD (i + 1) ([] : List (String × CFVal))) acc
      (scanLoop identityLabel records i) = _
    rw [scanStep_clean _ _ _ _ hcleanr, ih hi' hall]
    show FindOutcome.mk _ _ _ = _
    rw [List.append_assoc]
    rfl

/-- Whenever the loop ends with an error, the slice it returns is the Go nil
slice. -/
theorem scanLoop_err_refs_none (identityLabel : String) (records : List Rec) :
    ∀ (i : Nat) (acc : List CFVal),
    (scanLoop identityLabel records i acc).err ≠ none →
    (scanLoop identityLabel records i acc).refs = none := by
  intro i
  induction i with
  | zero =>
    intro acc h
    simp [scanLoop] at h
  | succ i ih =>
    intro acc h
    have hstep : scanLoop identityLabel records (i + 1) acc =
        scanStep identityLabel (records.getD (i + 1) ([] : List (String × CFVal))) acc
          (scanLoop identityLabel records i) := rfl
    rcases scanStep_cases identityLabel (records.getD (i + 1) ([] : List (String × CFVal))) acc
        (scanLoop identityLabel records i) with ⟨m, he⟩ | ⟨acc2, he⟩
    · rw [hstep, he]
    · rw [hstep, he]
      rw [hstep, he] at h
      exact ih acc2 h

/-- C1: the claim says a sole matching record is returned as exactly one
handle regardless of its position, index 0 included. The code refutes it:
the loop bound i > 0 never examines index 0, so the same single matching
record yields an empty slice with nil error when stored at index 0, yet
yields its retained v_Ref handle when stored at index 1. -/
theorem findIdentity_misses_index_zero :
    FindIdentity "L" ⟨errSecSuccess, [recL 10]⟩ = ⟨some [], none, []⟩ ∧
    FindIdentity "L" ⟨errSecSuccess, [recOther, recL 10]⟩ =
      ⟨some [CFVal.ref 10], none, [CFVal.ref 10]⟩ := by
  decide

/-- C2 counterexample: with two records sharing the label (at scanned
indices 1 and 2), FindIdentity returns both retained handles as a successful
result with nil error and releases none of them, instead of returning an
Ambiguous error. -/
theorem findIdentity_two_matches_returned_not_ambiguous :
    (FindIdentity "L" ⟨errSecSuccess, [recOther, recL 21, recL 22]⟩).err = none ∧
    (FindIdentity "L" ⟨errSecSuccess, [recOther, recL 21, recL 22]⟩).refs =
      some [CFVal.ref 22, CFVal.ref 21] ∧
    (FindIdentity "L" ⟨errSecSuccess, [recOther, recL 21, recL 22]⟩).outstanding ≠ [] := by
  decide

/-- C2 amended: when two or more scanned records share the requested label
(and every record reads cleanly), FindIdentity keeps all the retained
matching handles and returns them to the caller with nil error; the
multiple-match case is rejected not by FindIdentity but by the caller scan,
whose check on the returned slice is the fatal multiple-identities path. -/
theorem findIdentity_multiple_matches_success_caller_fatal
    (identityLabel : String) (st : Store)
    (hq : st.queryStatus = errSecSuccess)
    (hne : st.records ≠ [])
    (hclean : allRecsClean st.records = true)
    (hmult : 2 ≤ (matchedVRefs identityLabel st.records (st.records.length - 1)).length) :
    FindIdentity identityLabel st =
      ⟨some (matchedVRefs identityLabel st.records (st.records.length - 1)), none,
        matchedVRefs identityLabel st.records (st.records.length - 1)⟩ ∧
    scanIdentityRefsCheck (matchedVRefs identityLabel st.records (st.records.length - 1)) =
      ScanCheck.fatalMultiple := by
  have hlen : 0 < st.records.length := List.length_pos.mpr hne
  have hi : st.records.length - 1 < st.records.length := by omega
  constructor
  · unfold FindIdentity
    rw [hq, if_neg (by simp), if_neg (by omega : ¬ st.records.length < 1)]
    rw [scanLoop_clean_eq identityLabel st.records _ hi hclean []]
    simp
  · unfold scanIdentityRefsCheck
    rw [if_neg (by omega), if_pos (by omega)]

/-- C2 witness: the amended statement evaluated on a store holding two
records labelled L at scanned indices. -/
theorem findIdentity_multiple_matches_witness :
    FindIdentity "L" ⟨errSecSuccess, [recOther, recL 21, recL 22]⟩ =
      ⟨some (matchedVRefs "L" [recOther, recL 21, recL 22]
          ([recOther, recL 21, recL 22].length - 1)), none,
        matchedVRefs "L" [recOther, recL 21, recL 22]
          ([recOther, recL 21, recL 22].length - 1)⟩ ∧
    scanIdentityRefsCheck (matchedVRefs "L" [recOther, recL 21, recL 22]
        ([recOther, recL 21, recL 22].length - 1)) = ScanCheck.fatalMultiple :=
  findIdentity_multiple_matches_success_caller_fatal "L"
    ⟨errSecSuccess, [recOther, recL 21, recL 22]⟩ rfl (by decide) (by decide) (by decide)

/-- C3: the claim says every error return leaves zero outstanding retained
handles. The code refutes it: with a matching record at index 2 already
retained, a labl read failure on the record at index 1 returns an error
while the retained handle is never released, so one acquisition is
outstanding after the error return. -/
theorem findIdentity_error_leaks_retained_handle :
    (FindIdentity "L" ⟨errSecSuccess, [recOther, recNoLabl, recL 30]⟩).err ≠ none ∧
    (FindIdentity "L" ⟨errSecSuccess, [recOther, recNoLabl, recL 30]⟩).outstanding =
      [CFVal.ref 30] := by
  decide

/-- C4: the claim says the empty input sequence yields an EmptyInput error
without invoking the export primitive and without crashing. The code takes
the address of element 0 before any length check, so the empty slice is a
runtime panic; SecItemExport is indeed never invoked, but no error is ever
returned. -/
theorem exportFromKeychain_empty_input_panics (env : ExportEnv) (fs0 : Option (List UInt8)) :
    ExportFromKeychain [] env fs0 = ⟨true, none, fs0, 0, false⟩ := rfl

/-- C5 counterexample: a successful query whose non-empty result set holds
no record with the requested label makes FindIdentity return an empty slice
with nil error, not the NotFound error the claim requires. -/
theorem findIdentity_no_match_nonempty_not_notFound :
    FindIdentity "x" ⟨errSecSuccess, [recOther, recL 10]⟩ = ⟨some [], none, []⟩ ∧
    (FindIdentity "x" ⟨errSecSuccess, [recOther, recL 10]⟩).err ≠ some KCError.notFound := by
  decide

/-- C5 amended: on a successful query FindIdentity returns NotFound only for
an empty result set; a non-empty result set with no matching scanned record
yields an empty slice with nil error. In both cases zero handles are
outstanding, and in the second the caller scan turns the empty slice into
its fatal no-identity path. -/
theorem findIdentity_zero_matches_behaviour
    (identityLabel : String) (st : Store)
    (hq : st.queryStatus = errSecSuccess) :
    (st.records = [] → FindIdentity identityLabel st = ⟨none, some KCError.notFound, []⟩) ∧
    (st.records ≠ [] → allRecsClean st.records = true →
      matchedVRefs identityLabel st.records (st.records.length - 1) = [] →
      FindIdentity identityLabel st = ⟨some [], none, []⟩ ∧
      scanIdentityRefsCheck ((FindIdentity identityLabel st).refs.getD []) =
        ScanCheck.fatalNoIdentity) := by
  constructor
  · intro hrec
    unfold FindIdentity
    rw [hq, hrec]
    simp
  · intro hne hclean hmatch
    have hlen : 0 < st.records.length := List.length_pos.mpr hne
    have hi : st.records.length - 1 < st.records.length := by omega
    have heq : FindIdentity identityLabel st = ⟨some [], none, []⟩ := by
      unfold FindIdentity
      rw [hq, if_neg (by simp), if_neg (by omega : ¬ st.records.length < 1)]
      rw [scanLoop_clean_eq identityLabel st.records _ hi hclean [], hmatch]
      simp
    refine ⟨heq, ?_⟩
    rw [heq]
    rfl

/-- C5 witness: the amended statement evaluated on an empty result set and
on a two-record result set with no match for the label x. -/
theorem findIdentity_zero_matches_behaviour_witness :
    FindIdentity "x" ⟨errSecSuccess, []⟩ = ⟨none, some KCError.notFound, []⟩ ∧
    (FindIdentity "x" ⟨errSecSuccess, [recOther, recL 10]⟩ = ⟨some [], none, []⟩ ∧
      scanIdentityRefsCheck
        ((FindIdentity "x" ⟨errSecSuccess, [recOther, recL 10]⟩).refs.getD []) =
        ScanCheck.fatalNoIdentity) :=
  ⟨(findIdentity_zero_matches_behaviour "x" ⟨errSecSuccess, []⟩ rfl).1 rfl,
   (findIdentity_zero_matches_behaviour "x" ⟨errSecSuccess, [recOther, recL 10]⟩ rfl).2
     (by decide) (by decide) (by decide)⟩

/-- C6: on a successful run of ExportFromKeychain the byte sequence written
to the output file has length equal to the CFDataGetLength of the exported
buffer, and the buffer handle is released exactly once. -/
theorem exportFromKeychain_success_length_and_release
    (itemRefs : List CFVal) (env : ExportEnv) (fs0 : Option (List UInt8))
    (hne : itemRefs.length ≠ 0) (hst : env.exportStatus = errSecSuccess)
    (hw : env.writeOk = true) :
    (ExportFromKeychain itemRefs env fs0).err = none ∧
    (∃ bs, (ExportFromKeychain itemRefs env fs0).fileContent = some bs ∧
      bs.length = CFDataGetLength env.exportedBytes) ∧
    (ExportFromKeychain itemRefs env fs0).bufReleases = 1 := by
  simp [ExportFromKeychain, hne, hst, hw, CFDataGetLength]

/-- C6 witness: the theorem evaluated on a one-handle export of a two-byte
buffer with a succeeding write. -/
theorem exportFromKeychain_success_witness :
    (ExportFromKeychain [CFVal.ref 1] ⟨errSecSuccess, [7, 8], true, "", none⟩ none).err = none ∧
    (∃ bs, (ExportFromKeychain [CFVal.ref 1] ⟨errSecSuccess, [7, 8], true, "", none⟩
        none).fileContent = some bs ∧
      bs.length = CFDataGetLength [7, 8]) ∧
    (ExportFromKeychain [CFVal.ref 1] ⟨errSecSuccess, [7, 8], true, "", none⟩
        none).bufReleases = 1 :=
  exportFromKeychain_success_length_and_release [CFVal.ref 1]
    ⟨errSecSuccess, [7, 8], true, "", none⟩ none (by decide) rfl rfl

/-- C7: when SecItemExport returns a non-success status, ExportFromKeychain
returns a StoreFailure error carrying that numeric status, the byte-buffer
handle is released zero times, and the file at the output path keeps its
prior content. -/
theorem exportFromKeychain_store_failure_frame
    (itemRefs : List CFVal) (env : ExportEnv) (fs0 : Option (List UInt8))
    (hne : itemRefs.length ≠ 0) (hst : env.exportStatus ≠ errSecSuccess) :
    ExportFromKeychain itemRefs env fs0 =
      ⟨false, some (ExpError.storeFailure env.exportStatus), fs0, 0, true⟩ := by
  simp [ExportFromKeychain, hne, hst]

/-- C7 witness: the theorem evaluated on a one-handle export with status
-25300 against a pre-existing one-byte file. -/
theorem exportFromKeychain_store_failure_witness :
    ExportFromKeychain [CFVal.ref 1] ⟨-25300, [], true, "", none⟩ (some [1]) =
      ⟨false, some (ExpError.storeFailure (-25300)), some [1], 0, true⟩ :=
  exportFromKeychain_store_failure_frame [CFVal.ref 1] ⟨-25300, [], true, "", none⟩
    (some [1]) (by decide) (by decide)

/-- C8: the string accessor errors on every non-string value under the key
(a distinct message for a nil value and for a wrong type id), errors when
the UTF-8 conversion pointer is NULL, and succeeds with s only when the
value is a string whose UTF-8 pointer yields s, so an absent or nil value is
never reported as an empty string success. -/
theorem getCFDictValueUTF8String_type_and_null (dict : Rec) (key : String) :
    (lookupDict dict key = some CFVal.nullVal →
      getCFDictValueUTF8String dict key =
        Except.error "getCFDictValueCFStringRef: Nil value returned") ∧
    (∀ h, lookupDict dict key = some (CFVal.ref h) →
      getCFDictValueUTF8String dict key =
        Except.error "getCFDictValueCFStringRef: value is not a string") ∧
    (lookupDict dict key = some CFVal.other →
      getCFDictValueUTF8String dict key =
        Except.error "getCFDictValueCFStringRef: value is not a string") ∧
    (lookupDict dict key = some (CFVal.str none) →
      getCFDictValueUTF8String dict key =
        Except.error "getCFDictValueUTF8String: failed to convert value to string") ∧
    (∀ s, getCFDictValueUTF8String dict key = Except.ok s →
      lookupDict dict key = some (CFVal.str (some s))) := by
  refine ⟨?_, ?_, ?_, ?_, ?_⟩
  · intro h
    simp [getCFDictValueUTF8String, getCFDictValueCFStringRef, getCFDictValueRef, h]
  · intro h0 h
    simp [getCFDictValueUTF8String, getCFDictValueCFStringRef, getCFDictValueRef, h]
  · intro h
    simp [getCFDictValueUTF8String, getCFDictValueCFStringRef, getCFDictValueRef, h]
  · intro h
    simp [getCFDictValueUTF8String, getCFDictValueCFStringRef, getCFDictValueRef, h]
  · intro s h
    unfold getCFDictValueUTF8String getCFDictValueCFStringRef getCFDictValueRef at h
    cases hk : lookupDict dict key with
    | none =>
      rw [hk] at h
      simp at h
    | some v =>
      rw [hk] at h
      cases v with
      | nullVal => simp at h
      | ref h0 => simp at h
      | other => simp at h
      | str c =>
        cases c with
        | none => simp at h
        | some s0 =>
          simp at h
          rw [h]

/-- C8 witness: the accessor evaluated on singleton dictionaries holding a
nil value, a reference, an other-typed value, a string with a NULL UTF-8
pointer, and a convertible string. -/
theorem getCFDictValueUTF8String_type_and_null_witness :
    getCFDictValueUTF8String [("k", CFVal.nullVal)] "k" =
      Except.error "getCFDictValueCFStringRef: Nil value returned" ∧
    getCFDictValueUTF8String [("k", CFVal.ref 3)] "k" =
      Except.error "getCFDictValueCFStringRef: value is not a string" ∧
    getCFDictValueUTF8String [("k", CFVal.other)] "k" =
      Except.error "getCFDictValueCFStringRef: value is not a string" ∧
    getCFDictValueUTF8String [("k", CFVal.str none)] "k" =
      Except.error "getCFDictValueUTF8String: failed to convert value to string" ∧
    lookupDict [("k", CFVal.str (some "s"))] "k" = some (CFVal.str (some "s")) :=
  ⟨(getCFDictValueUTF8String_type_and_null [("k", CFVal.nullVal)] "k").1 (by decide),
   (getCFDictValueUTF8String_type_and_null [("k", CFVal.ref 3)] "k").2.1 3 (by decide),
   (getCFDictValueUTF8String_type_and_null [("k", CFVal.other)] "k").2.2.1 (by decide),
   (getCFDictValueUTF8String_type_and_null [("k", CFVal.str none)] "k").2.2.2.1 (by decide),
   (getCFDictValueUTF8String_type_and_null [("k", CFVal.str (some "s"))] "k").2.2.2.2 "s" rfl⟩

/-- C9: each of the two store primitive calls maps a non-success numeric
status to an error value carrying that raw status, and the rendered error
string interpolates the raw code, matching the Go format strings. -/
theorem store_primitive_errors_carry_status
    (identityLabel : String) (st : Store) (itemRefs : List CFVal) (env : ExportEnv)
    (fs0 : Option (List UInt8))
    (hq : st.queryStatus ≠ errSecSuccess) (hne : itemRefs.length ≠ 0)
    (hx : env.exportStatus ≠ errSecSuccess) :
    ((FindIdentity identityLabel st).err = some (KCError.storeFailure st.queryStatus) ∧
      (KCError.storeFailure st.queryStatus).message =
        "Failed to call SecItemCopyMatch - OSStatus: " ++ toString st.queryStatus) ∧
    ((ExportFromKeychain itemRefs env fs0).err = some (ExpError.storeFailure env.exportStatus) ∧
      (ExpError.storeFailure env.exportStatus).message =
        "SecItemExport: error (OSStatus): " ++ toString env.exportStatus) := by
  refine ⟨⟨?_, rfl⟩, ⟨?_, rfl⟩⟩
  · simp [FindIdentity, hq]
  · simp [ExportFromKeychain, hne, hx]

/-- C9 witness: the theorem evaluated on a query failing with status -128
and an export failing with status -25300. -/
theorem store_primitive_errors_carry_status_witness :
    ((FindIdentity "x" ⟨-128, []⟩).err = some (KCError.storeFailure (-128)) ∧
      (KCError.storeFailure (-128)).message =
        "Failed to call SecItemCopyMatch - OSStatus: " ++ toString (-128 : Int)) ∧
    ((ExportFromKeychain [CFVal.ref 1] ⟨-25300, [], true, "", none⟩ none).err =
        some (ExpError.storeFailure (-25300)) ∧
      (ExpError.storeFailure (-25300)).message =
        "SecItemExport: error (OSStatus): " ++ toString (-25300 : Int)) :=
  store_primitive_errors_carry_status "x" ⟨-128, []⟩ [CFVal.ref 1]
    ⟨-25300, [], true, "", none⟩ none (by decide) (by decide) (by decide)

/-- C10: whenever FindIdentity returns a non-nil error, the slice it returns
is the Go nil slice, so no handles, not even a partial list, reach the
caller together with an error. -/
theorem findIdentity_error_implies_nil_refs (identityLabel : String) (st : Store)
    (h : (FindIdentity identityLabel st).err ≠ none) :
    (FindIdentity identityLabel st).refs = none := by
  unfold FindIdentity at h ⊢
  by_cases h1 : st.queryStatus ≠ errSecSuccess
  · rw [if_pos h1]
  · rw [if_neg h1] at h ⊢
    by_cases h2 : st.records.length < 1
    · rw [if_pos h2]
    · rw [if_neg h2] at h ⊢
      exact scanLoop_err_refs_none identityLabel st.records _ [] h

/-- C10 witness: the theorem evaluated on a store whose query fails with
status 1. -/
theorem findIdentity_error_implies_nil_refs_witness :
    (FindIdentity "x" ⟨1, []⟩).err ≠ none ∧ (FindIdentity "x" ⟨1, []⟩).refs = none :=
  ⟨by decide, findIdentity_error_implies_nil_refs "x" ⟨1, []⟩ (by decide)⟩

end OSXKeychain
